import Mathlib

/-!
Shallow embedding of the glidemq-dashboard gateway (`src/index.ts`).

The gateway is an Express router over external queue handles.  We embed the
router's pure decision logic: every handler becomes a Lean function from the
parsed request data (query/body parameters, already run through JavaScript
`parseInt`, modelled as `Option Int`: `none` = `NaN`), the registry lookup
outcome (`queueFound : Bool`), and the engine's replies (modelled as
`Except ErrValue _` values or plain result lists) to a response record that
also tracks which engine calls were issued and whether / with what arguments
the `authorize` callback fired.  JavaScript `x || d` on parsed integers is
modelled faithfully: `NaN` and `0` are falsy, every other integer (negative
ones included) is truthy.
-/

/-- JSON values, used for response bodies exactly as the handlers build them.
An `obj` lists its fields in order, so a body with exactly one field is a
one-element `obj`. -/
inductive Json where
  | str : String → Json
  | num : Int → Json
  | bool : Bool → Json
  | null : Json
  | arr : List Json → Json
  | obj : List (String × Json) → Json
deriving Repr

/-- Error-response body `{ error: message }` (the only error shape the
gateway produces; it always has exactly the one field). -/
def errBody (m : String) : Json := Json.obj [("error", Json.str m)]

/-- A thrown JavaScript value as seen by the catch blocks: either an `Error`
carrying a message, or some non-`Error` value. -/
inductive ErrValue where
  | isError (message : String) : ErrValue
  | nonError : ErrValue
deriving Repr, DecidableEq

/-- `safeError` from `src/index.ts:33-36`: status (default 500) plus body
`{error: err.message}` for `Error` values, `{error: "Internal server error"}`
otherwise. -/
def safeError (err : ErrValue) (status : Nat) : Nat × Json :=
  (status,
    errBody (match err with
      | ErrValue.isError m => m
      | ErrValue.nonError => "Internal server error"))

/-- The request context handed to the `authorize` callback.  The gateway
never inspects it; it only passes it through, so an opaque tag suffices. -/
structure ReqCtx where
  ident : Nat
deriving Repr, DecidableEq

/-- `DashboardOptions` from `src/index.ts:15-25` (the `queueEvents` list is
modelled separately with the SSE state, see `registerHandlers` below). -/
structure DashboardOptions where
  readOnly : Bool
  authorize : Option (ReqCtx → String → Bool)

/-- The read-only rejection message from `src/index.ts:66`. -/
def readOnlyMessage : String := "Dashboard is in read-only mode"

/-- Outcome of `guardMutation`: either the request may proceed, or a response
was already written.  `authCall` records the exact `(req, action)` the
`authorize` callback was invoked with (`none` = never invoked). -/
inductive GuardResult where
  | allowed (authCall : Option (ReqCtx × String)) : GuardResult
  | denied (status : Nat) (body : Json) (authCall : Option (ReqCtx × String)) : GuardResult
deriving Repr

/-- `guardMutation` from `src/index.ts:59-77`: read-only short-circuits with
403 before the `authorize` callback; otherwise a configured callback decides
(403 on `false`); with neither option the request proceeds. -/
def guardMutation (req : ReqCtx) (opts : Option DashboardOptions) (action : String) :
    GuardResult :=
  match opts with
  | none => GuardResult.allowed none
  | some o =>
    if o.readOnly then GuardResult.denied 403 (errBody readOnlyMessage) none
    else
      match o.authorize with
      | none => GuardResult.allowed none
      | some f =>
        if f req action then GuardResult.allowed (some (req, action))
        else GuardResult.denied 403 (errBody "Unauthorized") (some (req, action))

/-- `VALID_STATES` from `src/index.ts:79`. -/
def VALID_STATES : List String :=
  ["waiting", "active", "delayed", "completed", "failed"]

/-- `MAX_PAGE_SIZE` from `src/index.ts:6`. -/
def MAX_PAGE_SIZE : Int := 200

/-- A job as serialized by the gateway (`serializeJob`, `src/index.ts:38-52`).
Optional engine fields are `Option`; `data`/`opts`/`progress`/`returnvalue`
are opaque JSON. -/
structure Job where
  id : String
  name : String
  data : Json
  opts : Json
  progress : Json
  attemptsMade : Nat
  failedReason : Option String
  returnvalue : Json
  timestamp : Option Int
  processedOn : Option Int
  finishedOn : Option Int

/-- `serializeJob` from `src/index.ts:38-52`: the eleven fields, in order. -/
def serializeJob (j : Job) : Json :=
  Json.obj
    [("id", Json.str j.id),
     ("name", Json.str j.name),
     ("data", j.data),
     ("opts", j.opts),
     ("progress", j.progress),
     ("attemptsMade", Json.num j.attemptsMade),
     ("failedReason", match j.failedReason with
        | none => Json.null
        | some s => Json.str s),
     ("returnvalue", j.returnvalue),
     ("timestamp", match j.timestamp with
        | none => Json.null
        | some t => Json.num t),
     ("processedOn", match j.processedOn with
        | none => Json.null
        | some t => Json.num t),
     ("finishedOn", match j.finishedOn with
        | none => Json.null
        | some t => Json.num t)]

/-- Pagination window of `GET /api/queues/:name/jobs` (`src/index.ts:145-147`):
`start = parseInt(q.start) || 0` (so `NaN` and `0` give `0`, any other parsed
integer — negative ones included — passes through), and
`endVal = isNaN(end) ? 20 : Math.min(end, start + MAX_PAGE_SIZE)`. -/
def effectiveWindow (startQ endQ : Option Int) : Int × Int :=
  let start : Int := match startQ with
    | none => 0
    | some n => n
  let endVal : Int := match endQ with
    | none => 20
    | some e => min e (start + MAX_PAGE_SIZE)
  (start, endVal)

/-- Pagination window of `GET /api/queues/:name/dlq` (`src/index.ts:229-231`);
the source repeats the same three lines verbatim. -/
def dlqEffectiveWindow (startQ endQ : Option Int) : Int × Int :=
  let start : Int := match startQ with
    | none => 0
    | some n => n
  let endVal : Int := match endQ with
    | none => 20
    | some e => min e (start + MAX_PAGE_SIZE)
  (start, endVal)

/-- JavaScript `Array.prototype.slice` index normalisation: negative indices
count from the end (clamped at 0), non-negative ones are clamped at the
length. -/
def jsSliceIndex (len : Nat) (i : Int) : Nat :=
  if i < 0 then ((len : Int) + i).toNat else min i.toNat len

/-- JavaScript `l.slice(s, e)`: the elements from normalised index `s` up to
(excluding) normalised index `e`. -/
def jsSlice {α : Type} (l : List α) (s e : Int) : List α :=
  (l.take (jsSliceIndex l.length e)).drop (jsSliceIndex l.length s)

/-- A job tagged with the state it was fetched from
(`{ ...serializeJob(j), state: s }`). -/
abbrev TaggedJob := Job × String

/-- The sort key of the merge branch (`src/index.ts:161`):
`(x.timestamp as number) ?? 0`. -/
def taggedKey (p : TaggedJob) : Int := p.1.timestamp.getD 0

/-- The comparator of `src/index.ts:161` as an ordering relation:
`a` before `b` iff `b`'s key is at most `a`'s (timestamp descending). -/
def tsDesc (a b : TaggedJob) : Prop := taggedKey b ≤ taggedKey a

instance : DecidableRel tsDesc := fun a b =>
  inferInstanceAs (Decidable (taggedKey b ≤ taggedKey a))

instance : IsTotal TaggedJob tsDesc :=
  ⟨fun a b => le_total (taggedKey b) (taggedKey a)⟩

instance : IsTrans TaggedJob tsDesc :=
  ⟨fun _ _ _ hab hbc => le_trans hbc hab⟩

/-- `{ ...serializeJob(j), state: s }`: the serialized job with the `state`
field appended (`src/index.ts:152,158`). -/
def serializeTagged (p : TaggedJob) : Json :=
  match serializeJob p.1 with
  | Json.obj fields => Json.obj (fields ++ [("state", Json.str p.2)])
  | j => j

/-- The no-`state` branch of the jobs listing (`src/index.ts:153-162`): fetch
`[0, endVal)` for each of the five states, tag each job with its source
state, concatenate, sort by timestamp descending (stable), then
`slice(start, endVal)`. -/
def mergedJobsList (fetch : String → Int → Int → List Job)
    (startQ endQ : Option Int) : List TaggedJob :=
  let start := (effectiveWindow startQ endQ).1
  let endVal := (effectiveWindow startQ endQ).2
  let tagged : List TaggedJob :=
    (VALID_STATES.map (fun s => (fetch s 0 endVal).map (fun j => (j, s)))).flatten
  jsSlice (List.insertionSort tsDesc tagged) start endVal

/-- The 400 body text for an invalid `state` (`src/index.ts:141`). -/
def invalidStateMessage (s : String) : String :=
  "Invalid state: " ++ s ++ ". Must be one of: " ++ String.intercalate ", " VALID_STATES

/-- Outcome of the jobs-listing route: status, body, and whether any engine
fetch was issued. -/
structure ListOutcome where
  status : Nat
  body : Json
  engineCalled : Bool

/-- `GET /api/queues/:name/jobs` (`src/index.ts:132-167`), success path of the
engine calls.  `stateQ` is the raw `state` query value (`none` = absent); the
handler tests it for JavaScript truthiness, so an empty string behaves like
an absent value both in validation (`state && !VALID_STATES.includes(state)`)
and in branch selection (`if (state)`). -/
def listJobsRoute (queueFound : Bool) (stateQ : Option String)
    (startQ endQ : Option Int) (fetch : String → Int → Int → List Job) :
    ListOutcome :=
  if !queueFound then ⟨404, errBody "Queue not found", false⟩
  else
    let start := (effectiveWindow startQ endQ).1
    let endVal := (effectiveWindow startQ endQ).2
    let merged : ListOutcome :=
      ⟨200, Json.arr ((mergedJobsList fetch startQ endQ).map serializeTagged), true⟩
    match stateQ with
    | none => merged
    | some s =>
      if s = "" then merged
      else if s ∈ VALID_STATES then
        ⟨200, Json.arr (((fetch s start endVal).map (fun j => (j, s))).map serializeTagged),
          true⟩
      else ⟨400, errBody (invalidStateMessage s), false⟩

/-- The search limit of `GET /api/queues/:name/search` (`src/index.ts:277`):
`Math.min(parseInt(q.limit) || 50, MAX_PAGE_SIZE)` — `NaN` and `0` default to
50, every other parsed integer (negative ones included) passes into the
`min`. -/
def searchLimit (limitQ : Option Int) : Int :=
  min (match limitQ with
        | none => 50
        | some n => if n = 0 then 50 else n)
      MAX_PAGE_SIZE

/-- Outcome of a simple mutation route.  `authCall` is what (if anything) the
`authorize` callback was invoked with; `engineTouched` is true iff any engine
call was issued; `opInvoked` is true iff the route's mutating engine
operation itself was invoked. -/
structure RouteOutcome where
  status : Nat
  body : Json
  authCall : Option (ReqCtx × String)
  engineTouched : Bool
  opInvoked : Bool

/-- `POST /api/queues/:name/pause` (`src/index.ts:290-303`): guard with
action `queue:pause`, 404 on unknown queue, then `queue.pause()` with the
usual `safeError` catch. -/
def pauseRoute (req : ReqCtx) (opts : Option DashboardOptions)
    (queueFound : Bool) (engine : Except ErrValue Unit) : RouteOutcome :=
  match guardMutation req opts "queue:pause" with
  | GuardResult.denied s b ac => ⟨s, b, ac, false, false⟩
  | GuardResult.allowed ac =>
    if !queueFound then ⟨404, errBody "Queue not found", ac, false, false⟩
    else
      match engine with
      | Except.ok _ => ⟨200, Json.obj [("status", Json.str "paused")], ac, true, true⟩
      | Except.error e => ⟨(safeError e 500).1, (safeError e 500).2, ac, true, true⟩

/-- `POST /api/queues/:name/resume` (`src/index.ts:306-319`). -/
def resumeRoute (req : ReqCtx) (opts : Option DashboardOptions)
    (queueFound : Bool) (engine : Except ErrValue Unit) : RouteOutcome :=
  match guardMutation req opts "queue:resume" with
  | GuardResult.denied s b ac => ⟨s, b, ac, false, false⟩
  | GuardResult.allowed ac =>
    if !queueFound then ⟨404, errBody "Queue not found", ac, false, false⟩
    else
      match engine with
      | Except.ok _ => ⟨200, Json.obj [("status", Json.str "resumed")], ac, true, true⟩
      | Except.error e => ⟨(safeError e 500).1, (safeError e 500).2, ac, true, true⟩

/-- `POST /api/queues/:name/obliterate` (`src/index.ts:388-401`); the engine
call is `queue.obliterate({force: true})`. -/
def obliterateRoute (req : ReqCtx) (opts : Option DashboardOptions)
    (queueFound : Bool) (engine : Except ErrValue Unit) : RouteOutcome :=
  match guardMutation req opts "queue:obliterate" with
  | GuardResult.denied s b ac => ⟨s, b, ac, false, false⟩
  | GuardResult.allowed ac =>
    if !queueFound then ⟨404, errBody "Queue not found", ac, false, false⟩
    else
      match engine with
      | Except.ok _ => ⟨200, Json.obj [("status", Json.str "obliterated")], ac, true, true⟩
      | Except.error e => ⟨(safeError e 500).1, (safeError e 500).2, ac, true, true⟩

/-- `delayed = req.body?.delayed === true` from `src/index.ts:411`. -/
def jsDelayedFlag (delayedRaw : Option Bool) : Bool :=
  match delayedRaw with
  | some true => true
  | _ => false

/-- `POST /api/queues/:name/drain` (`src/index.ts:404-418`):
`delayed = req.body?.delayed === true`, then `queue.drain(delayed)`. -/
def drainRoute (req : ReqCtx) (opts : Option DashboardOptions)
    (queueFound : Bool) (delayedRaw : Option Bool)
    (drainFn : Bool → Except ErrValue Unit) : RouteOutcome :=
  match guardMutation req opts "queue:drain" with
  | GuardResult.denied s b ac => ⟨s, b, ac, false, false⟩
  | GuardResult.allowed ac =>
    if !queueFound then ⟨404, errBody "Queue not found", ac, false, false⟩
    else
      match drainFn (jsDelayedFlag delayedRaw) with
      | Except.ok _ => ⟨200, Json.obj [("status", Json.str "drained")], ac, true, true⟩
      | Except.error e => ⟨(safeError e 500).1, (safeError e 500).2, ac, true, true⟩

/-- `DELETE /api/queues/:name/jobs/:id` (`src/index.ts:322-341`):
`getJob` (may throw → 500, may return null → 404), then `job.remove()`.
`getJobRes`: `.error e` = `getJob` threw, `.ok false` = job null,
`.ok true` = job found. -/
def removeJobRoute (req : ReqCtx) (opts : Option DashboardOptions)
    (queueFound : Bool) (getJobRes : Except ErrValue Bool)
    (opRes : Except ErrValue Unit) : RouteOutcome :=
  match guardMutation req opts "job:remove" with
  | GuardResult.denied s b ac => ⟨s, b, ac, false, false⟩
  | GuardResult.allowed ac =>
    if !queueFound then ⟨404, errBody "Queue not found", ac, false, false⟩
    else
      match getJobRes with
      | Except.error e => ⟨(safeError e 500).1, (safeError e 500).2, ac, true, false⟩
      | Except.ok false => ⟨404, errBody "Job not found", ac, true, false⟩
      | Except.ok true =>
        match opRes with
        | Except.ok _ => ⟨200, Json.obj [("status", Json.str "removed")], ac, true, true⟩
        | Except.error e => ⟨(safeError e 500).1, (safeError e 500).2, ac, true, true⟩

/-- `POST /api/queues/:name/jobs/:id/retry` (`src/index.ts:344-363`). -/
def retryJobRoute (req : ReqCtx) (opts : Option DashboardOptions)
    (queueFound : Bool) (getJobRes : Except ErrValue Bool)
    (opRes : Except ErrValue Unit) : RouteOutcome :=
  match guardMutation req opts "job:retry" with
  | GuardResult.denied s b ac => ⟨s, b, ac, false, false⟩
  | GuardResult.allowed ac =>
    if !queueFound then ⟨404, errBody "Queue not found", ac, false, false⟩
    else
      match getJobRes with
      | Except.error e => ⟨(safeError e 500).1, (safeError e 500).2, ac, true, false⟩
      | Except.ok false => ⟨404, errBody "Job not found", ac, true, false⟩
      | Except.ok true =>
        match opRes with
        | Except.ok _ => ⟨200, Json.obj [("status", Json.str "retried")], ac, true, true⟩
        | Except.error e => ⟨(safeError e 500).1, (safeError e 500).2, ac, true, true⟩

/-- `POST /api/queues/:name/jobs/:id/promote` (`src/index.ts:366-385`). -/
def promoteJobRoute (req : ReqCtx) (opts : Option DashboardOptions)
    (queueFound : Bool) (getJobRes : Except ErrValue Bool)
    (opRes : Except ErrValue Unit) : RouteOutcome :=
  match guardMutation req opts "job:promote" with
  | GuardResult.denied s b ac => ⟨s, b, ac, false, false⟩
  | GuardResult.allowed ac =>
    if !queueFound then ⟨404, errBody "Queue not found", ac, false, false⟩
    else
      match getJobRes with
      | Except.error e => ⟨(safeError e 500).1, (safeError e 500).2, ac, true, false⟩
      | Except.ok false => ⟨404, errBody "Job not found", ac, true, false⟩
      | Except.ok true =>
        match opRes with
        | Except.ok _ => ⟨200, Json.obj [("status", Json.str "promoted")], ac, true, true⟩
        | Except.error e => ⟨(safeError e 500).1, (safeError e 500).2, ac, true, true⟩

/-- Outcome of the retry-all route; `engineCall` records the argument the
engine's `retryJobs` was invoked with (`none` = never invoked,
`some none` = invoked with no cap, `some (some n)` = invoked with cap `n`). -/
structure RetryAllOutcome where
  status : Nat
  body : Json
  authCall : Option (ReqCtx × String)
  engineCall : Option (Option Int)

/-- `count = parseInt(body.count) || 0; count > 0 ? {count} : undefined`
from `src/index.ts:428-430`: the cap argument handed to the engine's
`retryJobs`. -/
def retryAllArg (countP : Option Int) : Option Int :=
  let count : Int := match countP with
    | none => 0
    | some n => if n = 0 then 0 else n
  if count > 0 then some count else none

/-- `POST /api/queues/:name/retry-all` (`src/index.ts:421-435`):
`count = parseInt(body.count) || 0`, then
`retryJobs(count > 0 ? {count} : undefined)`. -/
def retryAllRoute (req : ReqCtx) (opts : Option DashboardOptions)
    (queueFound : Bool) (countP : Option Int)
    (retryFn : Option Int → Except ErrValue Nat) : RetryAllOutcome :=
  match guardMutation req opts "queue:retryAll" with
  | GuardResult.denied s b ac => ⟨s, b, ac, none⟩
  | GuardResult.allowed ac =>
    if !queueFound then ⟨404, errBody "Queue not found", ac, none⟩
    else
      match retryFn (retryAllArg countP) with
      | Except.ok n =>
        ⟨200, Json.obj [("status", Json.str "ok"), ("retried", Json.num n)], ac,
          some (retryAllArg countP)⟩
      | Except.error e =>
        ⟨(safeError e 500).1, (safeError e 500).2, ac, some (retryAllArg countP)⟩

/-- Outcome of the clean route; `engineCall` records the
`(grace, limit, type)` the engine's `clean` was invoked with (`none` =
never invoked). -/
structure CleanOutcome where
  status : Nat
  body : Json
  authCall : Option (ReqCtx × String)
  engineCall : Option (Int × Int × String)

/-- `limit = parseInt(body.limit) || 100` from `src/index.ts:447`. -/
def cleanParsedLimit (limitP : Option Int) : Int :=
  match limitP with
  | none => 100
  | some n => if n = 0 then 100 else n

/-- `POST /api/queues/:name/clean` (`src/index.ts:438-465`):
`grace = parseInt(body.grace)` (`none` = `NaN`), `limit = parseInt(body.limit)
|| 100`, `type = body.type` (`none` = absent/non-string);
`isNaN(grace) || grace < 0` → 400, type not `completed`/`failed` → 400,
otherwise `clean(grace, Math.min(limit, 1000), type)` and the response
carries `removed.length`. -/
def cleanRoute (req : ReqCtx) (opts : Option DashboardOptions)
    (queueFound : Bool) (graceP limitP : Option Int) (typeP : Option String)
    (cleanFn : Int → Int → String → Except ErrValue (List Job)) : CleanOutcome :=
  match guardMutation req opts "queue:clean" with
  | GuardResult.denied s b ac => ⟨s, b, ac, none⟩
  | GuardResult.allowed ac =>
    if !queueFound then ⟨404, errBody "Queue not found", ac, none⟩
    else
      let limit : Int := cleanParsedLimit limitP
      match graceP with
      | none => ⟨400, errBody "grace must be a non-negative integer (ms)", ac, none⟩
      | some g =>
        if g < 0 then ⟨400, errBody "grace must be a non-negative integer (ms)", ac, none⟩
        else
          match typeP with
          | none => ⟨400, errBody "type must be \"completed\" or \"failed\"", ac, none⟩
          | some ty =>
            if ty ≠ "completed" ∧ ty ≠ "failed" then
              ⟨400, errBody "type must be \"completed\" or \"failed\"", ac, none⟩
            else
              match cleanFn g (min limit 1000) ty with
              | Except.ok removed =>
                ⟨200,
                  Json.obj [("status", Json.str "ok"),
                            ("removed", Json.num removed.length)],
                  ac, some (g, min limit 1000, ty)⟩
              | Except.error e =>
                ⟨(safeError e 500).1, (safeError e 500).2, ac, some (g, min limit 1000, ty)⟩

/-- `GET /api/queues` (`src/index.ts:116-129`): per-queue
`{name, counts, paused}` in registry order on success, `safeError` on any
rejection. -/
def getQueuesRoute (result : Except ErrValue (List (String × Json × Bool))) :
    Nat × Json :=
  match result with
  | Except.ok l =>
    (200, Json.arr (l.map (fun q =>
      Json.obj [("name", Json.str q.1), ("counts", q.2.1), ("paused", Json.bool q.2.2)])))
  | Except.error e => safeError e 500

/-- One registered listener: (upstream source id, event name, handler id).
Handlers are distinct closures in the source, so a handler id identifies one
registration. -/
abbrev Listener := Nat × String × Nat

/-- The fixed event-name set of `src/index.ts:478`. -/
def eventNames : List String :=
  ["completed", "failed", "progress", "active", "waiting", "stalled", "removed"]

/-- The registrations performed at connection open (`src/index.ts:480-489`):
for every configured upstream source, one fresh handler per event name, in
order; the fresh handler ids are `base`, `base+1`, …. -/
def registerHandlers (sources : List Nat) (base : Nat) : List Listener :=
  ((sources.map (fun s => eventNames.map (fun e => (s, e)))).flatten).enum.map
    (fun p => (p.2.1, p.2.2, base + p.1))

/-- Node `EventEmitter.removeListener`: removes the first matching
registration, a no-op when none is present. -/
def removeListener (L : List Listener) (t : Listener) : List Listener :=
  match L with
  | [] => []
  | x :: xs => if x = t then xs else x :: removeListener xs t

/-- The per-connection SSE state: all upstream listener registrations
(including other connections'), and whether this connection's heartbeat
timer is live. -/
structure SSEConn where
  listeners : List Listener
  heartbeatActive : Bool
deriving Repr, DecidableEq

/-- Connection open (`src/index.ts:480-493`): append this connection's
registrations to the pre-existing ones and start the heartbeat. -/
def openConnection (L0 : List Listener) (sources : List Nat) (base : Nat) : SSEConn :=
  ⟨L0 ++ registerHandlers sources base, true⟩

/-- `cleanup` (`src/index.ts:495-500`), installed on both the request's
`close` and the response's `error` event: cancel the heartbeat and call
`removeListener` once for every registration this connection made. -/
def cleanup (regs : List Listener) (c : SSEConn) : SSEConn :=
  ⟨regs.foldl removeListener c.listeners, false⟩

/-- Listener count of one upstream source. -/
def countSource (s : Nat) (L : List Listener) : Nat :=
  (L.filter (fun t => t.1 = s)).length

/-- A concrete job used to evaluate the listing pipeline on one input. -/
def witnessJob : Job :=
  ⟨"1", "job", Json.null, Json.null, Json.null, 0, none, Json.null, some 5, none, none⟩

/-- A concrete engine fetch that has one waiting job and nothing else. -/
def witnessFetch : String → Int → Int → List Job :=
  fun s _ _ => if s = "waiting" then [witnessJob] else []

theorem removeListener_of_not_mem {t : Listener} :
    ∀ {L : List Listener}, t ∉ L → removeListener L t = L := by
  intro L
  induction L with
  | nil => intro _; rfl
  | cons x xs ih =>
    intro h
    have hx : ¬x = t := fun hxt => h (hxt ▸ List.mem_cons_self x xs)
    simp only [removeListener, if_neg hx]
    rw [ih (fun hm => h (List.mem_cons_of_mem x hm))]

theorem removeListener_append_head {t : Listener} {rest : List Listener} :
    ∀ {L0 : List Listener}, t ∉ L0 →
      removeListener (L0 ++ t :: rest) t = L0 ++ rest := by
  intro L0
  induction L0 with
  | nil => intro _; simp [removeListener]
  | cons x xs ih =>
    intro h
    have hx : ¬x = t := fun hxt => h (hxt ▸ List.mem_cons_self x xs)
    simp only [List.cons_append, removeListener, if_neg hx, List.append_eq]
    rw [ih (fun hm => h (List.mem_cons_of_mem x hm))]

theorem foldl_removeListener_restores {L0 : List Listener} :
    ∀ {regs : List Listener}, (∀ t ∈ regs, t ∉ L0) →
      regs.foldl removeListener (L0 ++ regs) = L0 := by
  intro regs
  induction regs with
  | nil => intro _; simp
  | cons r rs ih =>
    intro h
    have hr : r ∉ L0 := h r (List.mem_cons_self r rs)
    simp only [List.foldl_cons]
    rw [removeListener_append_head hr]
    exact ih (fun t ht => h t (List.mem_cons_of_mem r ht))

theorem foldl_removeListener_of_disjoint {L0 : List Listener} :
    ∀ {regs : List Listener}, (∀ t ∈ regs, t ∉ L0) →
      regs.foldl removeListener L0 = L0 := by
  intro regs
  induction regs with
  | nil => intro _; rfl
  | cons r rs ih =>
    intro h
    simp only [List.foldl_cons]
    rw [removeListener_of_not_mem (h r (List.mem_cons_self r rs))]
    exact ih (fun t ht => h t (List.mem_cons_of_mem r ht))

/-- **C4 counterexample**: at parsed `start = 50`, `end = 10` the jobs/DLQ
pagination window is `[50, 10)` — the claimed invariant
`0 ≤ start ≤ end ≤ start+200` fails because `start ≤ end` does not hold:
the code clamps `end` from above by `start+200` but never raises it to
`start`. -/
theorem pagination_window_claim_false :
    ¬ (0 ≤ (effectiveWindow (some 50) (some 10)).1 ∧
       (effectiveWindow (some 50) (some 10)).1 ≤ (effectiveWindow (some 50) (some 10)).2 ∧
       (effectiveWindow (some 50) (some 10)).2 ≤
         (effectiveWindow (some 50) (some 10)).1 + 200) := by
  decide

/-- **C4 (amended)**: for every pagination request (jobs and DLQ listing)
whose effective start is non-negative (the code passes a negative parsed
start through unclamped, so this must be assumed), the effective window
satisfies `0 ≤ start` and `end ≤ start + 200`; the bound `start ≤ end` is
not enforced by the code. -/
theorem pagination_window_bounds (startQ endQ : Option Int)
    (h : 0 ≤ (effectiveWindow startQ endQ).1) :
    0 ≤ (effectiveWindow startQ endQ).1 ∧
    (effectiveWindow startQ endQ).2 ≤ (effectiveWindow startQ endQ).1 + 200 ∧
    0 ≤ (dlqEffectiveWindow startQ endQ).1 ∧
    (dlqEffectiveWindow startQ endQ).2 ≤ (dlqEffectiveWindow startQ endQ).1 + 200 := by
  rcases startQ with _ | n <;> rcases endQ with _ | e <;>
    simp only [effectiveWindow, dlqEffectiveWindow, MAX_PAGE_SIZE] at h ⊢ <;>
    refine ⟨?_, ?_, ?_, ?_⟩ <;> omega

/-- **C4 witness**: the amended bound evaluated at parsed `start = 3` with an
absent `end`. -/
theorem pagination_window_bounds_witness :
    0 ≤ (effectiveWindow (some 3) none).1 ∧
    (effectiveWindow (some 3) none).2 ≤ (effectiveWindow (some 3) none).1 + 200 :=
  ⟨by decide, (pagination_window_bounds (some 3) none (by decide)).2.1⟩

/-- **C9 counterexample**: a parsed `limit` of `-5` is truthy in JavaScript,
so it bypasses the `|| 50` default and `Math.min (-5) 200 = -5` is passed to
the engine — the claimed clamp to `[1, 200]` fails from below. -/
theorem search_limit_claim_false :
    ¬ (1 ≤ searchLimit (some (-5)) ∧ searchLimit (some (-5)) ≤ 200) := by
  decide

/-- **C9 (amended)**: the search limit is `min (parsed limit) 200`, with 50
substituted when the `limit` query is missing, non-numeric, or parses to `0`;
the upper clamp to 200 and the default of 50 hold, but no lower clamp to 1
is applied (negative parsed limits pass through). -/
theorem search_limit_bounds :
    (∀ q : Option Int, searchLimit q ≤ 200) ∧
    searchLimit none = 50 ∧
    searchLimit (some 0) = 50 ∧
    (∀ n : Int, n ≠ 0 → searchLimit (some n) = min n 200) := by
  refine ⟨fun q => min_le_right _ _, by decide, by decide, fun n hn => ?_⟩
  simp [searchLimit, MAX_PAGE_SIZE, if_neg hn]

/-- **C9 witness**: the amended clamp evaluated at parsed `limit = 500`. -/
theorem search_limit_bounds_witness : searchLimit (some 500) = min 500 200 :=
  search_limit_bounds.2.2.2 500 (by decide)

/-- **C6 (confirmed)**: an engine rejection carrying an `Error` with message
`m` is mapped by `safeError` — and hence by every route's catch block — to
status 500 with body exactly `{error: m}` (a one-field object, no stack
trace or diagnostics), shown for `safeError` itself, for `GET /api/queues`,
and for the pause route's engine-failure path. -/
theorem engine_error_maps_to_500_verbatim (m : String) (req : ReqCtx) :
    safeError (ErrValue.isError m) 500 = (500, Json.obj [("error", Json.str m)]) ∧
    getQueuesRoute (Except.error (ErrValue.isError m)) =
      (500, Json.obj [("error", Json.str m)]) ∧
    (pauseRoute req none true (Except.error (ErrValue.isError m))).status = 500 ∧
    (pauseRoute req none true (Except.error (ErrValue.isError m))).body =
      Json.obj [("error", Json.str m)] :=
  ⟨rfl, rfl, rfl, rfl⟩

/-- **C7 counterexample**: the `state` query value `""` is present and is not
one of the five `JobState` values, yet the handler treats it as absent
(JavaScript truthiness in `state && !VALID_STATES.includes(state)`) and
serves the merged listing with status 200 instead of the claimed 400. -/
theorem invalid_state_empty_not_400 :
    ¬ ((listJobsRoute true (some "") none none (fun _ _ _ => [])).status = 400) := by
  decide

/-- **C7 (amended)**: for every job-listing request on a known queue whose
`state` query value is present, **non-empty**, and not one of the five
states, the response is 400, its message names the invalid value and
enumerates the five valid states, and no engine fetch is issued. -/
theorem invalid_state_nonempty_400 (s : String) (h1 : s ≠ "")
    (h2 : s ∉ VALID_STATES) (startQ endQ : Option Int)
    (fetch : String → Int → Int → List Job) :
    (listJobsRoute true (some s) startQ endQ fetch).status = 400 ∧
    (listJobsRoute true (some s) startQ endQ fetch).body =
      errBody (invalidStateMessage s) ∧
    (listJobsRoute true (some s) startQ endQ fetch).engineCalled = false ∧
    invalidStateMessage s =
      "Invalid state: " ++ s ++ ". Must be one of: " ++
        "waiting, active, delayed, completed, failed" := by
  refine ⟨?_, ?_, ?_, rfl⟩ <;> simp [listJobsRoute, if_neg h1, h2]

/-- **C7 witness**: the amended statement evaluated at the invalid state
value `"bogus"`. -/
theorem invalid_state_nonempty_400_witness :
    (listJobsRoute true (some "bogus") none none (fun _ _ _ => [])).status = 400 :=
  (invalid_state_nonempty_400 "bogus" (by decide) (by decide) none none
    (fun _ _ _ => [])).1

/-- **C3 (confirmed)**: for a live-event connection whose handlers are fresh
(not already registered upstream — they are fresh closures in the source),
running `cleanup` on the opened connection removes every handler this
connection registered and cancels the heartbeat, restoring each upstream
source's listener list — and hence its per-source listener count — to
exactly its state before the connection opened; and `cleanup` is idempotent,
so the removal takes effect exactly once even if both terminal events
(`close` and `error`), which the source wires to the same `cleanup`, fire. -/
theorem sse_cleanup_restores_listeners (L0 : List Listener)
    (sources : List Nat) (base : Nat)
    (hfresh : ∀ t ∈ registerHandlers sources base, t ∉ L0) :
    cleanup (registerHandlers sources base) (openConnection L0 sources base) =
      ⟨L0, false⟩ ∧
    cleanup (registerHandlers sources base)
        (cleanup (registerHandlers sources base) (openConnection L0 sources base)) =
      cleanup (registerHandlers sources base) (openConnection L0 sources base) ∧
    ∀ s, countSource s
        (cleanup (registerHandlers sources base)
          (openConnection L0 sources base)).listeners = countSource s L0 := by
  have h1 : cleanup (registerHandlers sources base) (openConnection L0 sources base) =
      ⟨L0, false⟩ := by
    show SSEConn.mk
        ((registerHandlers sources base).foldl removeListener
          (L0 ++ registerHandlers sources base)) false = ⟨L0, false⟩
    rw [foldl_removeListener_restores hfresh]
  refine ⟨h1, ?_, ?_⟩
  · rw [h1]
    show SSEConn.mk ((registerHandlers sources base).foldl removeListener L0) false =
      ⟨L0, false⟩
    rw [foldl_removeListener_of_disjoint hfresh]
  · intro s
    rw [h1]

/-- **C3 witness**: one upstream source, empty prior listener list — the full
open/cleanup cycle restores the empty list and stops the heartbeat. -/
theorem sse_cleanup_restores_listeners_witness :
    cleanup (registerHandlers [0] 0) (openConnection [] [0] 0) = ⟨[], false⟩ :=
  (sse_cleanup_restores_listeners [] [0] 0 (by decide)).1

/-- **C5 (confirmed)**: the no-`state` listing fetches all five states,
tags each job with its source state, merges, sorts by creation timestamp
descending (`(timestamp ?? 0)` comparison, as in the source) and slices;
hence every returned element is ordered `tsDesc` against its successors
(non-increasing timestamps), and every returned element really carries one
of the five states and came from the fetch of the state it is tagged with. -/
theorem merged_listing_sorted_desc (fetch : String → Int → Int → List Job)
    (startQ endQ : Option Int) :
    List.Sorted tsDesc (mergedJobsList fetch startQ endQ) ∧
    ∀ p ∈ mergedJobsList fetch startQ endQ,
      p.2 ∈ VALID_STATES ∧ p.1 ∈ fetch p.2 0 (effectiveWindow startQ endQ).2 := by
  have hdef : mergedJobsList fetch startQ endQ =
      jsSlice
        (List.insertionSort tsDesc
          ((VALID_STATES.map (fun s =>
            (fetch s 0 (effectiveWindow startQ endQ).2).map (fun j => (j, s)))).flatten))
        (effectiveWindow startQ endQ).1 (effectiveWindow startQ endQ).2 := rfl
  have hsub : mergedJobsList fetch startQ endQ |>.Sublist
      (List.insertionSort tsDesc
        ((VALID_STATES.map (fun s =>
          (fetch s 0 (effectiveWindow startQ endQ).2).map (fun j => (j, s)))).flatten)) := by
    rw [hdef]
    exact (List.drop_sublist _ _).trans (List.take_sublist _ _)
  constructor
  · exact List.Pairwise.sublist hsub
      (List.sorted_insertionSort tsDesc _)
  · intro p hp
    have hp1 : p ∈ List.insertionSort tsDesc
        ((VALID_STATES.map (fun s =>
          (fetch s 0 (effectiveWindow startQ endQ).2).map (fun j => (j, s)))).flatten) :=
      hsub.subset hp
    have hp2 : p ∈ (VALID_STATES.map (fun s =>
        (fetch s 0 (effectiveWindow startQ endQ).2).map (fun j => (j, s)))).flatten :=
      (List.perm_insertionSort tsDesc _).subset hp1
    obtain ⟨l, hl, hpl⟩ := List.mem_flatten.mp hp2
    obtain ⟨s, hs, rfl⟩ := List.mem_map.mp hl
    obtain ⟨j, hj, hjp⟩ := List.mem_map.mp hpl
    cases hjp
    exact ⟨hs, hj⟩

/-- **C5 witness**: the membership part evaluated on a concrete fetch with a
single waiting job. -/
theorem merged_listing_sorted_desc_witness :
    ((witnessJob, "waiting") : TaggedJob).2 ∈ VALID_STATES ∧
    ((witnessJob, "waiting") : TaggedJob).1 ∈
      witnessFetch "waiting" 0 (effectiveWindow none none).2 :=
  (merged_listing_sorted_desc witnessFetch none none).2 (witnessJob, "waiting")
    (List.mem_cons_self _ _)

/-- **C10 (confirmed)**: on a guard-passing retry-all request for a known
queue, a missing, non-numeric, zero, or negative `count` body field makes the
handler call the engine's `retryJobs` with no cap (`some none`: invoked,
argument `undefined`); a cap is passed exactly when the parsed count is
strictly positive. -/
theorem retry_all_cap_rule (opts : Option DashboardOptions) (req : ReqCtx)
    (ac : Option (ReqCtx × String)) (countP : Option Int)
    (retryFn : Option Int → Except ErrValue Nat)
    (hg : guardMutation req opts "queue:retryAll" = GuardResult.allowed ac) :
    (countP = none →
      (retryAllRoute req opts true countP retryFn).engineCall = some none) ∧
    (∀ n : Int, countP = some n → n ≤ 0 →
      (retryAllRoute req opts true countP retryFn).engineCall = some none) ∧
    (∀ n : Int, countP = some n → 0 < n →
      (retryAllRoute req opts true countP retryFn).engineCall = some (some n)) := by
  refine ⟨?_, ?_, ?_⟩
  · rintro rfl
    simp only [retryAllRoute, hg]
    cases retryFn (retryAllArg none) <;> rfl
  · rintro n rfl hn
    have harg : retryAllArg (some n) = none := by
      have hng : ¬ n > 0 := by omega
      rcases eq_or_ne n 0 with h0 | h0 <;> simp [retryAllArg, h0, hng]
    simp only [retryAllRoute, hg]
    cases retryFn (retryAllArg (some n)) <;> simp [harg]
  · rintro n rfl hn
    have h0 : n ≠ 0 := by omega
    have harg : retryAllArg (some n) = some n := by
      simp [retryAllArg, h0, hn]
    simp only [retryAllRoute, hg]
    cases retryFn (retryAllArg (some n)) <;> simp [harg]

/-- **C10 witness**: with no `count` in the body, `retryJobs` is invoked with
no cap. -/
theorem retry_all_cap_rule_witness :
    (retryAllRoute ⟨0⟩ none true none (fun _ => Except.ok 0)).engineCall = some none :=
  (retry_all_cap_rule none ⟨0⟩ none none (fun _ => Except.ok 0) rfl).1 rfl

/-- **C8 (confirmed)**: on a guard-passing clean request for a known queue:
missing/non-numeric (`NaN`) or negative `grace` → 400 with no engine call;
`type` not exactly `completed`/`failed` (including absent) → 400 with no
engine call; otherwise the engine's `clean` is invoked with the limit
clamped to at most 1000 (`min (parseInt(limit) || 100) 1000`) and the 200
response reports the count of jobs removed. -/
theorem clean_validation (opts : Option DashboardOptions) (req : ReqCtx)
    (ac : Option (ReqCtx × String)) (graceP limitP : Option Int)
    (typeP : Option String)
    (cleanFn : Int → Int → String → Except ErrValue (List Job))
    (hg : guardMutation req opts "queue:clean" = GuardResult.allowed ac) :
    (graceP = none →
      (cleanRoute req opts true graceP limitP typeP cleanFn).status = 400 ∧
      (cleanRoute req opts true graceP limitP typeP cleanFn).engineCall = none) ∧
    (∀ g : Int, graceP = some g → g < 0 →
      (cleanRoute req opts true graceP limitP typeP cleanFn).status = 400 ∧
      (cleanRoute req opts true graceP limitP typeP cleanFn).engineCall = none) ∧
    (∀ g : Int, graceP = some g → 0 ≤ g →
      ((∀ ty : String, typeP = some ty → ty ≠ "completed" → ty ≠ "failed" →
        (cleanRoute req opts true graceP limitP typeP cleanFn).status = 400 ∧
        (cleanRoute req opts true graceP limitP typeP cleanFn).engineCall = none) ∧
       (typeP = none →
        (cleanRoute req opts true graceP limitP typeP cleanFn).status = 400 ∧
        (cleanRoute req opts true graceP limitP typeP cleanFn).engineCall = none))) ∧
    (∀ (g : Int) (ty : String) (jobs : List Job), graceP = some g → 0 ≤ g →
      (ty = "completed" ∨ ty = "failed") → typeP = some ty →
      cleanFn g (min (cleanParsedLimit limitP) 1000) ty = Except.ok jobs →
      (cleanRoute req opts true graceP limitP typeP cleanFn).engineCall =
        some (g, min (cleanParsedLimit limitP) 1000, ty) ∧
      (cleanRoute req opts true graceP limitP typeP cleanFn).status = 200 ∧
      (cleanRoute req opts true graceP limitP typeP cleanFn).body =
        Json.obj [("status", Json.str "ok"),
                  ("removed", Json.num jobs.length)]) ∧
    (∀ lp : Option Int, min (cleanParsedLimit lp) 1000 ≤ 1000) := by
  refine ⟨?_, ?_, ?_, ?_, fun lp => min_le_right _ _⟩
  · rintro rfl
    simp [cleanRoute, hg]
  · rintro g rfl hlt
    simp [cleanRoute, hg, hlt]
  · rintro g rfl hge
    have hnlt : ¬ g < 0 := by omega
    refine ⟨?_, ?_⟩
    · rintro ty rfl h1 h2
      simp [cleanRoute, hg, hnlt, h1, h2]
    · rintro rfl
      simp [cleanRoute, hg, hnlt]
  · rintro g ty jobs rfl hge hty rfl hok
    have hnlt : ¬ g < 0 := by omega
    have hcond : ¬ (ty ≠ "completed" ∧ ty ≠ "failed") := by
      rcases hty with rfl | rfl <;> simp
    simp [cleanRoute, hg, hnlt, hcond, hok]

/-- **C8 witness**: a valid request (`grace = 5`, no `limit`, type
`completed`) invokes the engine with `(5, min 100 1000, "completed")`. -/
theorem clean_validation_witness :
    (cleanRoute ⟨0⟩ none true (some 5) none (some "completed")
      (fun _ _ _ => Except.ok [])).engineCall =
      some (5, min (cleanParsedLimit none) 1000, "completed") :=
  ((clean_validation none ⟨0⟩ none (some 5) none (some "completed")
      (fun _ _ _ => Except.ok []) rfl).2.2.2.1 5 "completed" [] rfl (by decide)
      (Or.inl rfl) rfl rfl).1

/-- **C1 (confirmed)**: with `readOnly` set — whatever `authorize` callback
is configured and whatever the request, registry, or engine would do — every
one of the nine mutating routes responds 403 with body
`{error: "Dashboard is in read-only mode"}` (a message mentioning
`read-only`), the `authorize` callback is never invoked (`authCall = none`),
and no engine operation is invoked. -/
theorem readonly_blocks_all_mutations
    (auth : Option (ReqCtx → String → Bool)) (req : ReqCtx) (qf : Bool)
    (ePause eResume eObl : Except ErrValue Unit)
    (dRaw : Option Bool) (dFn : Bool → Except ErrValue Unit)
    (gR gT gP : Except ErrValue Bool) (oR oT oP : Except ErrValue Unit)
    (graceP limitP countP : Option Int) (typeP : Option String)
    (cleanFn : Int → Int → String → Except ErrValue (List Job))
    (retryFn : Option Int → Except ErrValue Nat) :
    pauseRoute req (some ⟨true, auth⟩) qf ePause =
      ⟨403, errBody readOnlyMessage, none, false, false⟩ ∧
    resumeRoute req (some ⟨true, auth⟩) qf eResume =
      ⟨403, errBody readOnlyMessage, none, false, false⟩ ∧
    obliterateRoute req (some ⟨true, auth⟩) qf eObl =
      ⟨403, errBody readOnlyMessage, none, false, false⟩ ∧
    drainRoute req (some ⟨true, auth⟩) qf dRaw dFn =
      ⟨403, errBody readOnlyMessage, none, false, false⟩ ∧
    removeJobRoute req (some ⟨true, auth⟩) qf gR oR =
      ⟨403, errBody readOnlyMessage, none, false, false⟩ ∧
    retryJobRoute req (some ⟨true, auth⟩) qf gT oT =
      ⟨403, errBody readOnlyMessage, none, false, false⟩ ∧
    promoteJobRoute req (some ⟨true, auth⟩) qf gP oP =
      ⟨403, errBody readOnlyMessage, none, false, false⟩ ∧
    retryAllRoute req (some ⟨true, auth⟩) qf countP retryFn =
      ⟨403, errBody readOnlyMessage, none, none⟩ ∧
    cleanRoute req (some ⟨true, auth⟩) qf graceP limitP typeP cleanFn =
      ⟨403, errBody readOnlyMessage, none, none⟩ ∧
    (∃ a b : String, readOnlyMessage = a ++ "read-only" ++ b) :=
  ⟨rfl, rfl, rfl, rfl, rfl, rfl, rfl, rfl, rfl,
   ⟨"Dashboard is in ", " mode", rfl⟩⟩

theorem guard_auth_true {f : ReqCtx → String → Bool} {req : ReqCtx} {a : String}
    (hf : f req a = true) :
    guardMutation req (some ⟨false, some f⟩) a =
      GuardResult.allowed (some (req, a)) := by
  simp [guardMutation, hf]

theorem guard_auth_false {f : ReqCtx → String → Bool} {req : ReqCtx} {a : String}
    (hf : f req a = false) :
    guardMutation req (some ⟨false, some f⟩) a =
      GuardResult.denied 403 (errBody "Unauthorized") (some (req, a)) := by
  simp [guardMutation, hf]

theorem pauseRoute_denied {req : ReqCtx} {opts : Option DashboardOptions}
    {s : Nat} {b : Json} {ac : Option (ReqCtx × String)}
    (qf : Bool) (e : Except ErrValue Unit)
    (h : guardMutation req opts "queue:pause" = GuardResult.denied s b ac) :
    pauseRoute req opts qf e = ⟨s, b, ac, false, false⟩ := by
  unfold pauseRoute; rw [h]

theorem resumeRoute_denied {req : ReqCtx} {opts : Option DashboardOptions}
    {s : Nat} {b : Json} {ac : Option (ReqCtx × String)}
    (qf : Bool) (e : Except ErrValue Unit)
    (h : guardMutation req opts "queue:resume" = GuardResult.denied s b ac) :
    resumeRoute req opts qf e = ⟨s, b, ac, false, false⟩ := by
  unfold resumeRoute; rw [h]

theorem obliterateRoute_denied {req : ReqCtx} {opts : Option DashboardOptions}
    {s : Nat} {b : Json} {ac : Option (ReqCtx × String)}
    (qf : Bool) (e : Except ErrValue Unit)
    (h : guardMutation req opts "queue:obliterate" = GuardResult.denied s b ac) :
    obliterateRoute req opts qf e = ⟨s, b, ac, false, false⟩ := by
  unfold obliterateRoute; rw [h]

theorem drainRoute_denied {req : ReqCtx} {opts : Option DashboardOptions}
    {s : Nat} {b : Json} {ac : Option (ReqCtx × String)}
    (qf : Bool) (dRaw : Option Bool) (dFn : Bool → Except ErrValue Unit)
    (h : guardMutation req opts "queue:drain" = GuardResult.denied s b ac) :
    drainRoute req opts qf dRaw dFn = ⟨s, b, ac, false, false⟩ := by
  unfold drainRoute; rw [h]

theorem removeJobRoute_denied {req : ReqCtx} {opts : Option DashboardOptions}
    {s : Nat} {b : Json} {ac : Option (ReqCtx × String)}
    (qf : Bool) (g : Except ErrValue Bool) (o : Except ErrValue Unit)
    (h : guardMutation req opts "job:remove" = GuardResult.denied s b ac) :
    removeJobRoute req opts qf g o = ⟨s, b, ac, false, false⟩ := by
  unfold removeJobRoute; rw [h]

theorem retryJobRoute_denied {req : ReqCtx} {opts : Option DashboardOptions}
    {s : Nat} {b : Json} {ac : Option (ReqCtx × String)}
    (qf : Bool) (g : Except ErrValue Bool) (o : Except ErrValue Unit)
    (h : guardMutation req opts "job:retry" = GuardResult.denied s b ac) :
    retryJobRoute req opts qf g o = ⟨s, b, ac, false, false⟩ := by
  unfold retryJobRoute; rw [h]

theorem promoteJobRoute_denied {req : ReqCtx} {opts : Option DashboardOptions}
    {s : Nat} {b : Json} {ac : Option (ReqCtx × String)}
    (qf : Bool) (g : Except ErrValue Bool) (o : Except ErrValue Unit)
    (h : guardMutation req opts "job:promote" = GuardResult.denied s b ac) :
    promoteJobRoute req opts qf g o = ⟨s, b, ac, false, false⟩ := by
  unfold promoteJobRoute; rw [h]

theorem retryAllRoute_denied {req : ReqCtx} {opts : Option DashboardOptions}
    {s : Nat} {b : Json} {ac : Option (ReqCtx × String)}
    (qf : Bool) (countP : Option Int) (retryFn : Option Int → Except ErrValue Nat)
    (h : guardMutation req opts "queue:retryAll" = GuardResult.denied s b ac) :
    retryAllRoute req opts qf countP retryFn = ⟨s, b, ac, none⟩ := by
  unfold retryAllRoute; rw [h]

theorem cleanRoute_denied {req : ReqCtx} {opts : Option DashboardOptions}
    {s : Nat} {b : Json} {ac : Option (ReqCtx × String)}
    (qf : Bool) (graceP limitP : Option Int) (typeP : Option String)
    (cleanFn : Int → Int → String → Except ErrValue (List Job))
    (h : guardMutation req opts "queue:clean" = GuardResult.denied s b ac) :
    cleanRoute req opts qf graceP limitP typeP cleanFn = ⟨s, b, ac, none⟩ := by
  unfold cleanRoute; rw [h]

theorem pauseRoute_authCall_auth (f : ReqCtx → String → Bool) (req : ReqCtx)
    (qf : Bool) (e : Except ErrValue Unit) :
    (pauseRoute req (some ⟨false, some f⟩) qf e).authCall =
      some (req, "queue:pause") := by
  cases hf : f req "queue:pause"
  · rw [pauseRoute_denied qf e (guard_auth_false hf)]
  · unfold pauseRoute
    rw [guard_auth_true hf]
    cases qf <;> cases e <;> rfl

theorem resumeRoute_authCall_auth (f : ReqCtx → String → Bool) (req : ReqCtx)
    (qf : Bool) (e : Except ErrValue Unit) :
    (resumeRoute req (some ⟨false, some f⟩) qf e).authCall =
      some (req, "queue:resume") := by
  cases hf : f req "queue:resume"
  · rw [resumeRoute_denied qf e (guard_auth_false hf)]
  · unfold resumeRoute
    rw [guard_auth_true hf]
    cases qf <;> cases e <;> rfl

theorem obliterateRoute_authCall_auth (f : ReqCtx → String → Bool) (req : ReqCtx)
    (qf : Bool) (e : Except ErrValue Unit) :
    (obliterateRoute req (some ⟨false, some f⟩) qf e).authCall =
      some (req, "queue:obliterate") := by
  cases hf : f req "queue:obliterate"
  · rw [obliterateRoute_denied qf e (guard_auth_false hf)]
  · unfold obliterateRoute
    rw [guard_auth_true hf]
    cases qf <;> cases e <;> rfl

theorem drainRoute_authCall_auth (f : ReqCtx → String → Bool) (req : ReqCtx)
    (qf : Bool) (dRaw : Option Bool) (dFn : Bool → Except ErrValue Unit) :
    (drainRoute req (some ⟨false, some f⟩) qf dRaw dFn).authCall =
      some (req, "queue:drain") := by
  cases hf : f req "queue:drain"
  · rw [drainRoute_denied qf dRaw dFn (guard_auth_false hf)]
  · unfold drainRoute
    rw [guard_auth_true hf]
    cases qf <;> cases dFn (jsDelayedFlag dRaw) <;> rfl

theorem removeJobRoute_authCall_auth (f : ReqCtx → String → Bool) (req : ReqCtx)
    (qf : Bool) (g : Except ErrValue Bool) (o : Except ErrValue Unit) :
    (removeJobRoute req (some ⟨false, some f⟩) qf g o).authCall =
      some (req, "job:remove") := by
  cases hf : f req "job:remove"
  · rw [removeJobRoute_denied qf g o (guard_auth_false hf)]
  · unfold removeJobRoute
    rw [guard_auth_true hf]
    cases qf
    · rfl
    · cases g with
      | error e2 => rfl
      | ok b =>
        cases b
        · rfl
        · cases o <;> rfl

theorem retryJobRoute_authCall_auth (f : ReqCtx → String → Bool) (req : ReqCtx)
    (qf : Bool) (g : Except ErrValue Bool) (o : Except ErrValue Unit) :
    (retryJobRoute req (some ⟨false, some f⟩) qf g o).authCall =
      some (req, "job:retry") := by
  cases hf : f req "job:retry"
  · rw [retryJobRoute_denied qf g o (guard_auth_false hf)]
  · unfold retryJobRoute
    rw [guard_auth_true hf]
    cases qf
    · rfl
    · cases g with
      | error e2 => rfl
      | ok b =>
        cases b
        · rfl
        · cases o <;> rfl

theorem promoteJobRoute_authCall_auth (f : ReqCtx → String → Bool) (req : ReqCtx)
    (qf : Bool) (g : Except ErrValue Bool) (o : Except ErrValue Unit) :
    (promoteJobRoute req (some ⟨false, some f⟩) qf g o).authCall =
      some (req, "job:promote") := by
  cases hf : f req "job:promote"
  · rw [promoteJobRoute_denied qf g o (guard_auth_false hf)]
  · unfold promoteJobRoute
    rw [guard_auth_true hf]
    cases qf
    · rfl
    · cases g with
      | error e2 => rfl
      | ok b =>
        cases b
        · rfl
        · cases o <;> rfl

theorem retryAllRoute_authCall_auth (f : ReqCtx → String → Bool) (req : ReqCtx)
    (qf : Bool) (countP : Option Int)
    (retryFn : Option Int → Except ErrValue Nat) :
    (retryAllRoute req (some ⟨false, some f⟩) qf countP retryFn).authCall =
      some (req, "queue:retryAll") := by
  cases hf : f req "queue:retryAll"
  · rw [retryAllRoute_denied qf countP retryFn (guard_auth_false hf)]
  · unfold retryAllRoute
    rw [guard_auth_true hf]
    cases qf <;> cases retryFn (retryAllArg countP) <;> rfl

theorem cleanRoute_authCall_auth (f : ReqCtx → String → Bool) (req : ReqCtx)
    (qf : Bool) (graceP limitP : Option Int) (typeP : Option String)
    (cleanFn : Int → Int → String → Except ErrValue (List Job)) :
    (cleanRoute req (some ⟨false, some f⟩) qf graceP limitP typeP cleanFn).authCall =
      some (req, "queue:clean") := by
  cases hf : f req "queue:clean"
  · rw [cleanRoute_denied qf graceP limitP typeP cleanFn (guard_auth_false hf)]
  · simp only [cleanRoute, guard_auth_true hf]
    cases qf
    · rfl
    · cases graceP with
      | none => rfl
      | some g =>
        by_cases h0 : g < 0
        · simp [h0]
        · cases typeP with
          | none => simp [h0]
          | some ty =>
            by_cases hty : ty ≠ "completed" ∧ ty ≠ "failed"
            · simp [h0, hty]
            · cases hc : cleanFn g (min (cleanParsedLimit limitP) 1000) ty <;>
                simp [h0, hty, hc]

theorem pauseRoute_op {req : ReqCtx} {opts : Option DashboardOptions}
    {ac : Option (ReqCtx × String)} (e : Except ErrValue Unit)
    (h : guardMutation req opts "queue:pause" = GuardResult.allowed ac) :
    (pauseRoute req opts true e).opInvoked = true := by
  unfold pauseRoute; rw [h]; cases e <;> rfl

theorem resumeRoute_op {req : ReqCtx} {opts : Option DashboardOptions}
    {ac : Option (ReqCtx × String)} (e : Except ErrValue Unit)
    (h : guardMutation req opts "queue:resume" = GuardResult.allowed ac) :
    (resumeRoute req opts true e).opInvoked = true := by
  unfold resumeRoute; rw [h]; cases e <;> rfl

theorem obliterateRoute_op {req : ReqCtx} {opts : Option DashboardOptions}
    {ac : Option (ReqCtx × String)} (e : Except ErrValue Unit)
    (h : guardMutation req opts "queue:obliterate" = GuardResult.allowed ac) :
    (obliterateRoute req opts true e).opInvoked = true := by
  unfold obliterateRoute; rw [h]; cases e <;> rfl

theorem drainRoute_op {req : ReqCtx} {opts : Option DashboardOptions}
    {ac : Option (ReqCtx × String)} (dRaw : Option Bool)
    (dFn : Bool → Except ErrValue Unit)
    (h : guardMutation req opts "queue:drain" = GuardResult.allowed ac) :
    (drainRoute req opts true dRaw dFn).opInvoked = true := by
  unfold drainRoute; rw [h]; cases dFn (jsDelayedFlag dRaw) <;> rfl

theorem removeJobRoute_op {req : ReqCtx} {opts : Option DashboardOptions}
    {ac : Option (ReqCtx × String)} (o : Except ErrValue Unit)
    (h : guardMutation req opts "job:remove" = GuardResult.allowed ac) :
    (removeJobRoute req opts true (Except.ok true) o).opInvoked = true := by
  unfold removeJobRoute; rw [h]; cases o <;> rfl

theorem retryJobRoute_op {req : ReqCtx} {opts : Option DashboardOptions}
    {ac : Option (ReqCtx × String)} (o : Except ErrValue Unit)
    (h : guardMutation req opts "job:retry" = GuardResult.allowed ac) :
    (retryJobRoute req opts true (Except.ok true) o).opInvoked = true := by
  unfold retryJobRoute; rw [h]; cases o <;> rfl

theorem promoteJobRoute_op {req : ReqCtx} {opts : Option DashboardOptions}
    {ac : Option (ReqCtx × String)} (o : Except ErrValue Unit)
    (h : guardMutation req opts "job:promote" = GuardResult.allowed ac) :
    (promoteJobRoute req opts true (Except.ok true) o).opInvoked = true := by
  unfold promoteJobRoute; rw [h]; cases o <;> rfl

theorem retryAllRoute_op {req : ReqCtx} {opts : Option DashboardOptions}
    {ac : Option (ReqCtx × String)} (countP : Option Int)
    (retryFn : Option Int → Except ErrValue Nat)
    (h : guardMutation req opts "queue:retryAll" = GuardResult.allowed ac) :
    (retryAllRoute req opts true countP retryFn).engineCall =
      some (retryAllArg countP) := by
  simp only [retryAllRoute, h]
  cases retryFn (retryAllArg countP) <;> rfl

theorem cleanRoute_op {req : ReqCtx} {opts : Option DashboardOptions}
    {ac : Option (ReqCtx × String)} (limitP : Option Int)
    (cleanFn : Int → Int → String → Except ErrValue (List Job))
    (g : Int) (ty : String) (hg0 : 0 ≤ g)
    (hty : ty = "completed" ∨ ty = "failed")
    (h : guardMutation req opts "queue:clean" = GuardResult.allowed ac) :
    (cleanRoute req opts true (some g) limitP (some ty) cleanFn).engineCall =
      some (g, min (cleanParsedLimit limitP) 1000, ty) := by
  have hnlt : ¬ g < 0 := by omega
  have hcond : ¬ (ty ≠ "completed" ∧ ty ≠ "failed") := by
    rcases hty with rfl | rfl <;> simp
  cases hc : cleanFn g (min (cleanParsedLimit limitP) 1000) ty <;>
    simp [cleanRoute, h, hnlt, hcond, hc]

/-- **C2 (confirmed)**: with `readOnly` unset and an `authorize` callback `f`
configured, every one of the nine mutating routes invokes `f` with the
request and exactly its own action tag (and does so before any engine call:
on denial no engine operation has been issued); if `f` returns `false` the
route responds 403 `{error: "Unauthorized"}` without touching the engine;
if `f` returns `true` the route's engine operation is performed (for job
routes: once the job is found; for clean: once its parameters validate —
the awaited Boolean models both a synchronous and an asynchronous
callback result). -/
theorem authorize_exact_action_and_gating
    (f : ReqCtx → String → Bool) (req : ReqCtx) (qf : Bool)
    (ePause eResume eObl : Except ErrValue Unit)
    (dRaw : Option Bool) (dFn : Bool → Except ErrValue Unit)
    (gR gT gP : Except ErrValue Bool) (oR oT oP : Except ErrValue Unit)
    (limitP countP : Option Int)
    (cleanFn : Int → Int → String → Except ErrValue (List Job))
    (retryFn : Option Int → Except ErrValue Nat) :
    ((pauseRoute req (some ⟨false, some f⟩) qf ePause).authCall =
        some (req, "queue:pause") ∧
      (f req "queue:pause" = false →
        pauseRoute req (some ⟨false, some f⟩) qf ePause =
          ⟨403, errBody "Unauthorized", some (req, "queue:pause"), false, false⟩) ∧
      (f req "queue:pause" = true →
        (pauseRoute req (some ⟨false, some f⟩) true ePause).opInvoked = true)) ∧
    ((resumeRoute req (some ⟨false, some f⟩) qf eResume).authCall =
        some (req, "queue:resume") ∧
      (f req "queue:resume" = false →
        resumeRoute req (some ⟨false, some f⟩) qf eResume =
          ⟨403, errBody "Unauthorized", some (req, "queue:resume"), false, false⟩) ∧
      (f req "queue:resume" = true →
        (resumeRoute req (some ⟨false, some f⟩) true eResume).opInvoked = true)) ∧
    ((obliterateRoute req (some ⟨false, some f⟩) qf eObl).authCall =
        some (req, "queue:obliterate") ∧
      (f req "queue:obliterate" = false →
        obliterateRoute req (some ⟨false, some f⟩) qf eObl =
          ⟨403, errBody "Unauthorized", some (req, "queue:obliterate"), false, false⟩) ∧
      (f req "queue:obliterate" = true →
        (obliterateRoute req (some ⟨false, some f⟩) true eObl).opInvoked = true)) ∧
    ((drainRoute req (some ⟨false, some f⟩) qf dRaw dFn).authCall =
        some (req, "queue:drain") ∧
      (f req "queue:drain" = false →
        drainRoute req (some ⟨false, some f⟩) qf dRaw dFn =
          ⟨403, errBody "Unauthorized", some (req, "queue:drain"), false, false⟩) ∧
      (f req "queue:drain" = true →
        (drainRoute req (some ⟨false, some f⟩) true dRaw dFn).opInvoked = true)) ∧
    ((removeJobRoute req (some ⟨false, some f⟩) qf gR oR).authCall =
        some (req, "job:remove") ∧
      (f req "job:remove" = false →
        removeJobRoute req (some ⟨false, some f⟩) qf gR oR =
          ⟨403, errBody "Unauthorized", some (req, "job:remove"), false, false⟩) ∧
      (f req "job:remove" = true →
        (removeJobRoute req (some ⟨false, some f⟩) true (Except.ok true) oR).opInvoked =
          true)) ∧
    ((retryJobRoute req (some ⟨false, some f⟩) qf gT oT).authCall =
        some (req, "job:retry") ∧
      (f req "job:retry" = false →
        retryJobRoute req (some ⟨false, some f⟩) qf gT oT =
          ⟨403, errBody "Unauthorized", some (req, "job:retry"), false, false⟩) ∧
      (f req "job:retry" = true →
        (retryJobRoute req (some ⟨false, some f⟩) true (Except.ok true) oT).opInvoked =
          true)) ∧
    ((promoteJobRoute req (some ⟨false, some f⟩) qf gP oP).authCall =
        some (req, "job:promote") ∧
      (f req "job:promote" = false →
        promoteJobRoute req (some ⟨false, some f⟩) qf gP oP =
          ⟨403, errBody "Unauthorized", some (req, "job:promote"), false, false⟩) ∧
      (f req "job:promote" = true →
        (promoteJobRoute req (some ⟨false, some f⟩) true (Except.ok true) oP).opInvoked =
          true)) ∧
    ((retryAllRoute req (some ⟨false, some f⟩) qf countP retryFn).authCall =
        some (req, "queue:retryAll") ∧
      (f req "queue:retryAll" = false →
        retryAllRoute req (some ⟨false, some f⟩) qf countP retryFn =
          ⟨403, errBody "Unauthorized", some (req, "queue:retryAll"), none⟩) ∧
      (f req "queue:retryAll" = true →
        (retryAllRoute req (some ⟨false, some f⟩) true countP retryFn).engineCall =
          some (retryAllArg countP))) ∧
    ((∀ (graceP : Option Int) (typeP : Option String),
        (cleanRoute req (some ⟨false, some f⟩) qf graceP limitP typeP
          cleanFn).authCall = some (req, "queue:clean")) ∧
      (f req "queue:clean" = false → ∀ (graceP : Option Int) (typeP : Option String),
        cleanRoute req (some ⟨false, some f⟩) qf graceP limitP typeP cleanFn =
          ⟨403, errBody "Unauthorized", some (req, "queue:clean"), none⟩) ∧
      (f req "queue:clean" = true → ∀ (g : Int) (ty : String), 0 ≤ g →
        (ty = "completed" ∨ ty = "failed") →
        (cleanRoute req (some ⟨false, some f⟩) true (some g) limitP (some ty)
            cleanFn).engineCall =
          some (g, min (cleanParsedLimit limitP) 1000, ty))) :=
  ⟨⟨pauseRoute_authCall_auth f req qf ePause,
    fun hf => pauseRoute_denied qf ePause (guard_auth_false hf),
    fun hf => pauseRoute_op ePause (guard_auth_true hf)⟩,
   ⟨resumeRoute_authCall_auth f req qf eResume,
    fun hf => resumeRoute_denied qf eResume (guard_auth_false hf),
    fun hf => resumeRoute_op eResume (guard_auth_true hf)⟩,
   ⟨obliterateRoute_authCall_auth f req qf eObl,
    fun hf => obliterateRoute_denied qf eObl (guard_auth_false hf),
    fun hf => obliterateRoute_op eObl (guard_auth_true hf)⟩,
   ⟨drainRoute_authCall_auth f req qf dRaw dFn,
    fun hf => drainRoute_denied qf dRaw dFn (guard_auth_false hf),
    fun hf => drainRoute_op dRaw dFn (guard_auth_true hf)⟩,
   ⟨removeJobRoute_authCall_auth f req qf gR oR,
    fun hf => removeJobRoute_denied qf gR oR (guard_auth_false hf),
    fun hf => removeJobRoute_op oR (guard_auth_true hf)⟩,
   ⟨retryJobRoute_authCall_auth f req qf gT oT,
    fun hf => retryJobRoute_denied qf gT oT (guard_auth_false hf),
    fun hf => retryJobRoute_op oT (guard_auth_true hf)⟩,
   ⟨promoteJobRoute_authCall_auth f req qf gP oP,
    fun hf => promoteJobRoute_denied qf gP oP (guard_auth_false hf),
    fun hf => promoteJobRoute_op oP (guard_auth_true hf)⟩,
   ⟨retryAllRoute_authCall_auth f req qf countP retryFn,
    fun hf => retryAllRoute_denied qf countP retryFn (guard_auth_false hf),
    fun hf => retryAllRoute_op countP retryFn (guard_auth_true hf)⟩,
   ⟨fun graceP typeP => cleanRoute_authCall_auth f req qf graceP limitP typeP cleanFn,
    fun hf graceP typeP =>
      cleanRoute_denied qf graceP limitP typeP cleanFn (guard_auth_false hf),
    fun hf g ty hg0 hty =>
      cleanRoute_op limitP cleanFn g ty hg0 hty (guard_auth_true hf)⟩⟩

/-- **C2 witness**: an always-allowing callback on the pause route with a
known queue — the engine pause operation is invoked; instantiated through
the main theorem with every hypothesis discharged concretely. -/
theorem authorize_exact_action_and_gating_witness :
    (pauseRoute ⟨0⟩ (some ⟨false, some (fun _ _ => true)⟩) true
      (Except.ok ())).opInvoked = true :=
  (authorize_exact_action_and_gating (fun _ _ => true) ⟨0⟩ true
    (Except.ok ()) (Except.ok ()) (Except.ok ()) none (fun _ => Except.ok ())
    (Except.ok true) (Except.ok true) (Except.ok true)
    (Except.ok ()) (Except.ok ()) (Except.ok ()) none none
    (fun _ _ _ => Except.ok []) (fun _ => Except.ok 0)).1.2.2 rfl
